import Mathlib

set_option allowUnsafeReducibility true
attribute [semireducible] Rat.add Rat.mul Rat.sub Rat.div Rat.neg Rat.inv

/-!
Verification of the Transaction subsystem of the python-accounting repository.

The definitions below are a shallow embedding of
`python_accounting/models/transaction.py`.  Database sessions are modelled as
explicit environments, SQLAlchemy validation hooks as functions returning
`Except`, and `Decimal` amounts as rationals.  Components of the repository
that are referenced by `transaction.py` but whose modules are not part of the
sources at hand (`Ledger.post`, `ReportingPeriod`, `LineItem`, the
configuration provider) are modelled from the specification and marked as
such in their doc comments.
-/

namespace PythonAccounting

/-- Entry type of a Ledger entry (`Balance.BalanceType` in the source). -/
inductive BalanceType where
  | DEBIT
  | CREDIT
deriving DecidableEq

/-- Status of a `ReportingPeriod`.  Modelled from the spec: the
`ReportingPeriod` model is not among the sources; the spec gives its status
set as OPEN, ADJUSTING, CLOSED. -/
inductive RPStatus where
  | OPEN
  | ADJUSTING
  | CLOSED
deriving DecidableEq

/-- Transaction types.  Modelled from the spec: the configuration provider
enumerating transaction types is not among the sources; the variants are the
typed transactions the spec names (§2, §4.4, §8). -/
inductive TransactionType where
  | CLIENT_INVOICE
  | CASH_SALE
  | CLIENT_RECEIPT
  | CREDIT_NOTE
  | SUPPLIER_BILL
  | CASH_PURCHASE
  | SUPPLIER_PAYMENT
  | DEBIT_NOTE
  | CONTRA_ENTRY
  | JOURNAL_ENTRY
deriving DecidableEq

/-- Dates (`datetime`) are modelled as points on an integer timeline
(e.g. microseconds since the epoch); only ordering and equality of dates are
used by the code under verification. -/
abbrev Datetime := Int

/-- A tax applied to a line item.  Modelled from the spec: the `Tax` model is
not among the sources; `transaction.py` reads `tax.rate`, `tax.code` and
`tax.name` from it. -/
structure Tax where
  code : String
  name : String
  rate : Rat
deriving DecidableEq

/-- One row of a transaction.  Modelled from the spec (§3): the `LineItem`
model is not among the sources; `transaction.py` reads `id`, `account_id`,
`amount`, `quantity`, `tax_id`, `tax_inclusive` and `credited` from it.
`tax` is `none` when the line item has no tax; the source's `tax_id`
truthiness test corresponds to `tax.isSome`. -/
structure LineItem where
  id : Option Nat
  account_id : Nat
  amount : Rat
  quantity : Rat
  tax : Option Tax
  tax_inclusive : Bool
  credited : Bool
deriving DecidableEq

/-- A posted ledger row, per spec §3: {transaction_id, post_account_id,
currency_id, entry_type, amount}, plus the `entity_id` isolation column that
`Transaction.contribution` filters on. -/
structure Ledger where
  entity_id : Nat
  transaction_id : Nat
  post_account_id : Nat
  currency_id : Nat
  entry_type : BalanceType
  amount : Rat
deriving DecidableEq

/-- An account, as read by `transaction.py`: `_get_main_account` fetches it by
id and `validate` reads its `currency_id`. -/
structure Account where
  id : Nat
  currency_id : Nat
deriving DecidableEq

/-- A reporting period.  Modelled from the spec (§3, §4.1): the
`ReportingPeriod` model is not among the sources; `transaction.py` reads its
`status`, `period_count` and `interval()["start"]`. -/
structure ReportingPeriod where
  status : RPStatus
  period_count : Nat
  interval_start : Datetime
deriving DecidableEq

/-- The `Transaction` model of `models/transaction.py`.  `line_items` and
`ledgers` collections are modelled as lists.  `transaction_type_changed`
models the ORM history inspection
`inspect(self).attrs.transaction_type.history.deleted` being non-empty, and
`session_index` models the optional `session_index` attribute read by
`getattr(self, "session_index", 1)`. -/
structure Transaction where
  id : Option Nat
  entity_id : Nat
  transaction_date : Datetime
  transaction_no : Option String
  transaction_type : TransactionType
  narration : String
  reference : Option String
  main_account_amount : Rat
  credited : Bool
  compound : Bool
  currency_id : Nat
  account_id : Nat
  line_items : List LineItem
  ledgers : List Ledger
  transaction_type_changed : Bool
  session_index : Option Nat
deriving DecidableEq

/-- Validation errors raised by `transaction.py` (from
`python_accounting/exceptions`), plus Python's built-in `ValueError` and
`TypeError`. -/
inductive VError where
  | postedTransaction (message : String)
  | valueError (message : String)
  | typeError (message : String)
  | closedReportingPeriod
  | adjustingReportingPeriod
  | invalidTransactionDate
  | invalidTransactionType
  | redundantTransaction
  | missingLineItem
  | missingReportingPeriod
deriving DecidableEq

/-- The database session as seen by `transaction.py`: `session.get(Account,
id)`, `ReportingPeriod.get_period(session, date)` and the transaction table
queried by `_transaction_no`. -/
structure Session where
  accounts : Nat → Option Account
  periods : Datetime → Option ReportingPeriod
  transactions : List Transaction

/-- The configuration provider.  Modelled from the spec (§6): it supplies the
`transaction_no` prefix for each transaction type. -/
structure Config where
  prefixFor : TransactionType → String

namespace Transaction

/-- `Transaction.is_posted`: the Transaction has been posted to the ledger. -/
def is_posted (tx : Transaction) : Bool :=
  tx.ledgers.length > 0

/-- `Transaction.amount`: the amount of the Transaction (source lines
163-178): the sum over line items on the opposite side of the transaction of
`amount * quantity` plus, when the line item is taxed and not tax inclusive,
`amount * quantity * tax.rate / 100`. -/
def amount (tx : Transaction) : Rat :=
  ((tx.line_items.filter (fun l => l.credited != tx.credited)).map (fun l =>
    l.amount * l.quantity +
      (match l.tax with
        | some t => if !l.tax_inclusive then l.amount * l.quantity * t.rate / 100 else 0
        | none => 0))).sum

/-- The amount property as the claim states it: over exactly the attached
line items whose credited flag differs from the transaction's, the sum of
`quantity * amount`, plus the sum of the tax amounts
(`amount * quantity * rate / 100`) of those of them that are taxed and not
tax inclusive. -/
def amount_stated (tx : Transaction) : Rat :=
  ((tx.line_items.filter (fun l => l.credited != tx.credited)).map
      (fun l => l.quantity * l.amount)).sum
  + ((tx.line_items.filter (fun l => l.credited != tx.credited)).map (fun l =>
      match l.tax with
        | some t => if l.tax_inclusive then 0 else l.amount * l.quantity * t.rate / 100
        | none => 0)).sum

/-- `Transaction.validate_line_items` (source lines 103-121): the hook run by
the ORM when a line item is added to (`is_remove = false`) or removed from
(`is_remove = true`) `line_items`.  The base `Transaction` class defines no
`_validate_subclass_line_items`, so that branch is absent. -/
def validate_line_items (tx : Transaction) (line_item : LineItem)
    (is_remove : Bool) : Except VError LineItem :=
  if tx.is_posted then
    .error (.postedTransaction
      ("Cannot " ++ (if is_remove then "Remove" else "Add")
        ++ " Line Items from a Posted Transaction."))
  else if line_item.id = none then
    .error (.valueError "Line Item must be persisted to be added to the Transaction.")
  else if !tx.compound && (line_item.credited == tx.credited) then
    .ok { line_item with credited := !tx.credited }
  else
    .ok line_item

/-- Adding a line item to `Transaction.line_items`: the ORM runs the
`validate_line_items` hook on the candidate and appends its result; when the
hook raises, the collection is untouched. -/
def attach (tx : Transaction) (line_item : LineItem) : Except VError Transaction :=
  match tx.validate_line_items line_item false with
  | .error e => .error e
  | .ok li => .ok { tx with line_items := tx.line_items ++ [li] }

/-- `Transaction._get_main_account` (source lines 183-188). -/
def get_main_account (s : Session) (tx : Transaction) : Except VError Account :=
  match s.accounts tx.account_id with
  | none => .error (.valueError "The main Account is required")
  | some account => .ok account

/-- The count query of `Transaction._transaction_no` (source lines 192-200):
the number of transactions of the given type, dated strictly after the
reporting period's start, belonging to the transaction's entity (deleted
ones included). -/
def priorCount (s : Session) (tx : Transaction) (transaction_type : TransactionType)
    (reporting_period : ReportingPeriod) : Nat :=
  (s.transactions.filter (fun x =>
    x.transaction_type == transaction_type
      && decide (x.transaction_date > reporting_period.interval_start)
      && x.entity_id == tx.entity_id)).length

/-- Zero-padding of Python's `f"{n:02}"` / `f"{n:04}"` format specifiers. -/
def padNum (width n : Nat) : String :=
  let s := toString n
  (List.replicate (width - s.length) '0').asString ++ s

/-- `Transaction._transaction_no` (source lines 190-205): the next
auto-generated transaction number
`f"{prefix}{reporting_period.period_count:02}{next_id:04}"` with a `/` between
the two counters, where `next_id` is the count query plus
`getattr(self, "session_index", 1)`. -/
def transaction_no_next (s : Session) (cfg : Config) (tx : Transaction)
    (transaction_type : TransactionType) (reporting_period : ReportingPeriod) : String :=
  let next_id := priorCount s tx transaction_type reporting_period
    + tx.session_index.getD 1
  cfg.prefixFor transaction_type ++ padNum 2 reporting_period.period_count
    ++ "/" ++ padNum 4 next_id

/-- Python truthiness of `self.transaction_no` in `if not self.transaction_no`:
`None` and the empty string are falsy. -/
def falsyOptStr : Option String → Bool
  | none => true
  | some s => s.isEmpty

/-- The `self.currency_id = account.currency_id` overwrite of `validate`
(source line 300). -/
def set_currency (tx : Transaction) (account : Account) : Transaction :=
  { tx with currency_id := account.currency_id }

/-- The lazy `transaction_no` assignment of `validate` (source lines
320-323): assign the auto-generated number only when the current one is
Python-falsy. -/
def assign_transaction_no (s : Session) (cfg : Config) (tx1 : Transaction)
    (reporting_period : ReportingPeriod) : Transaction :=
  if falsyOptStr tx1.transaction_no then
    { tx1 with transaction_no := some (transaction_no_next s cfg tx1 tx1.transaction_type reporting_period) }
  else tx1

/-- `Transaction.validate` (source lines 267-327), with the session as an
explicit environment and mutation of `self` modelled by returning the updated
transaction.  The checks run in source order: posted, main account,
reporting-period resolution, `currency_id` overwrite (`set_currency`),
CLOSED, ADJUSTING, period-start date, type change, `transaction_no`
assignment (`assign_transaction_no`), redundant line items.
(`self.transaction_date and ...` is plain equality here: `datetime` values
are always truthy.) -/
def validate (s : Session) (cfg : Config) (tx : Transaction) :
    Except VError Transaction :=
  if tx.is_posted then
    .error (.postedTransaction "A Posted Transaction cannot be modified.")
  else
    match s.accounts tx.account_id with
    | none => .error (.valueError "The main Account is required")
    | some account =>
      match s.periods tx.transaction_date with
      | none => .error .missingReportingPeriod
      | some reporting_period =>
        if reporting_period.status = RPStatus.CLOSED then
          .error .closedReportingPeriod
        else if reporting_period.status = RPStatus.ADJUSTING
            ∧ (set_currency tx account).transaction_type
              ≠ TransactionType.JOURNAL_ENTRY then
          .error .adjustingReportingPeriod
        else if (set_currency tx account).transaction_date
            = reporting_period.interval_start then
          .error .invalidTransactionDate
        else if (set_currency tx account).id.isSome
            ∧ (set_currency tx account).transaction_type_changed then
          .error .invalidTransactionType
        else if (assign_transaction_no s cfg (set_currency tx account)
              reporting_period).line_items.any (fun line_item =>
                line_item.account_id
                  == (assign_transaction_no s cfg (set_currency tx account)
                        reporting_period).account_id) then
          .error .redundantTransaction
        else
          .ok (assign_transaction_no s cfg (set_currency tx account) reporting_period)

/-- `Transaction.validate_delete` (source lines 329-345). -/
def validate_delete (tx : Transaction) : Except VError Unit :=
  if tx.is_posted then
    .error (.postedTransaction "A Posted Transaction cannot be deleted.")
  else
    .ok ()

end Transaction

/-- The tax-inclusive amount a line item posts, per spec §4.3: the line
item's amount (times quantity), with the tax added when the line item carries
a tax that is not already included in the amount. -/
def LineItem.postedAmount (l : LineItem) : Rat :=
  l.amount * l.quantity +
    (match l.tax with
      | some t => if !l.tax_inclusive then l.amount * l.quantity * t.rate / 100 else 0
      | none => 0)

/-- Modelled from the spec: `Ledger.post` (`models/ledger.py` is not among
the sources).  Spec §4.3: for each line item it emits a matched pair of
Ledger entries — one on the line item's account and side, one on the main
account and the opposite side — each carrying the line item's tax-inclusive
amount. -/
def Ledger.postEntries (entity_id transaction_id currency_id main_account_id : Nat) :
    List LineItem → List Ledger
  | [] => []
  | l :: rest =>
    { entity_id := entity_id, transaction_id := transaction_id,
      post_account_id := l.account_id, currency_id := currency_id,
      entry_type := if l.credited then BalanceType.CREDIT else BalanceType.DEBIT,
      amount := l.postedAmount }
    :: { entity_id := entity_id, transaction_id := transaction_id,
         post_account_id := main_account_id, currency_id := currency_id,
         entry_type := if l.credited then BalanceType.DEBIT else BalanceType.CREDIT,
         amount := l.postedAmount }
    :: Ledger.postEntries entity_id transaction_id currency_id main_account_id rest

/-- `Transaction.post` (source lines 207-231): requires at least one line
item, then delegates to `Ledger.post` which writes the balanced entries into
`ledgers`. -/
def Transaction.post (tx : Transaction) : Except VError Transaction :=
  if tx.line_items.isEmpty then
    .error .missingLineItem
  else
    let entries := Ledger.postEntries tx.entity_id (tx.id.getD 0) tx.currency_id
      tx.account_id tx.line_items
    .ok { tx with ledgers := entries }

/-- Total of the DEBIT entries of a list of ledger rows. -/
def debitsTotal (ls : List Ledger) : Rat :=
  ((ls.filter (fun e => e.entry_type == BalanceType.DEBIT)).map Ledger.amount).sum

/-- Total of the CREDIT entries of a list of ledger rows. -/
def creditsTotal (ls : List Ledger) : Rat :=
  ((ls.filter (fun e => e.entry_type == BalanceType.CREDIT)).map Ledger.amount).sum

/-- SQL `SUM` aggregate as returned by `.scalar()`: `NULL` (`None`) over an
empty set of rows, the sum of the amounts otherwise. -/
def scalarSum (ls : List Ledger) : Option Rat :=
  if ls.isEmpty then none else some ((ls.map Ledger.amount).sum)

/-- Python's `or` on two numbers: the left operand unless it is zero. -/
def pyOr (a b : Rat) : Rat :=
  if a ≠ 0 then a else b

/-- `Transaction.contribution` (source lines 233-265), with the ledger table
passed explicitly.  The base query filters the ledger rows by entity,
transaction, currency and account; the returned expression is Python's
`debit.scalar() or 0 - credit.scalar() or 0`, which parses as
`debit or ((0 - credit) or 0)`: the credit leg is evaluated only when the
debit sum is falsy (`None` or zero), and `0 - None` raises `TypeError`. -/
def Transaction.contribution (ledger_table : List Ledger) (tx : Transaction)
    (account : Account) : Except VError Rat :=
  let base := ledger_table.filter (fun e =>
    e.entity_id == tx.entity_id
      && some e.transaction_id == tx.id
      && e.currency_id == tx.currency_id
      && e.post_account_id == account.id)
  let debitScalar := scalarSum (base.filter (fun e => e.entry_type == BalanceType.DEBIT))
  match debitScalar with
  | some d =>
    if d ≠ 0 then
      .ok d
    else
      match scalarSum (base.filter (fun e => e.entry_type == BalanceType.CREDIT)) with
      | none => .error (.typeError "unsupported operand type(s) for -: int and NoneType")
      | some c => .ok (pyOr (0 - c) 0)
  | none =>
    match scalarSum (base.filter (fun e => e.entry_type == BalanceType.CREDIT)) with
    | none => .error (.typeError "unsupported operand type(s) for -: int and NoneType")
    | some c => .ok (pyOr (0 - c) 0)

/-- The contribution computation as the claim states it: unconditionally the
sum of the transaction's DEBIT ledger amounts on the account minus the sum of
its CREDIT ledger amounts on the account. -/
def Transaction.contribution_stated (ledger_table : List Ledger) (tx : Transaction)
    (account : Account) : Rat :=
  let base := ledger_table.filter (fun e =>
    e.entity_id == tx.entity_id
      && some e.transaction_id == tx.id
      && e.currency_id == tx.currency_id
      && e.post_account_id == account.id)
  ((base.filter (fun e => e.entry_type == BalanceType.DEBIT)).map Ledger.amount).sum
    - ((base.filter (fun e => e.entry_type == BalanceType.CREDIT)).map Ledger.amount).sum

deriving instance DecidableEq for Except

/-! ## Concrete instances used to exercise the definitions -/

/-- A concrete main account (id 7, currency 3). -/
def acct7 : Account := { id := 7, currency_id := 3 }

/-- An open reporting period number 2 starting at instant 100. -/
def rpOpen : ReportingPeriod := { status := .OPEN, period_count := 2, interval_start := 100 }

/-- A session holding `acct7`, resolving every date to `rpOpen`, with an empty
transaction table. -/
def sess : Session :=
  { accounts := fun i => if i = 7 then some acct7 else none,
    periods := fun _ => some rpOpen,
    transactions := [] }

/-- A configuration assigning the prefix "IN" to every transaction type. -/
def cfg0 : Config := { prefixFor := fun _ => "IN" }

/-- An unposted client invoice on `acct7`, dated inside `rpOpen`. -/
def tx0 : Transaction :=
  { id := none, entity_id := 1, transaction_date := 150, transaction_no := none,
    transaction_type := .CLIENT_INVOICE, narration := "n", reference := none,
    main_account_amount := 0, credited := false, compound := false,
    currency_id := 0, account_id := 7, line_items := [], ledgers := [],
    transaction_type_changed := false, session_index := none }

/-- A ledger table in which transaction 5 posted a DEBIT of 10 and a CREDIT
of 4 to `acct7`. -/
def ledgerBoth : List Ledger :=
  [ { entity_id := 1, transaction_id := 5, post_account_id := 7, currency_id := 3,
      entry_type := .DEBIT, amount := 10 },
    { entity_id := 1, transaction_id := 5, post_account_id := 7, currency_id := 3,
      entry_type := .CREDIT, amount := 4 } ]

/-- `tx0` as the persisted transaction with id 5 in currency 3. -/
def tx5 : Transaction := { tx0 with id := some 5, currency_id := 3 }

/-! ## Claims -/

/-- Claim C1: `contribution` is claimed to return the net signed amount,
debit sum minus credit sum, unconditionally.  The code disagrees: Python's
`or` binds looser than `-`, so `debit or 0 - credit or 0` parses as
`debit or ((0 - credit) or 0)` and returns the debit sum alone whenever it is
nonzero.  On a ledger where transaction 5 posted DEBIT 10 and CREDIT 4 to the
account, the code returns 10 while the stated net amount is 6. -/
theorem contribution_short_circuits_on_nonzero_debits :
    Transaction.contribution ledgerBoth tx5 acct7 = Except.ok 10
    ∧ Transaction.contribution_stated ledgerBoth tx5 acct7 = 6
    ∧ (10 : Rat) ≠ 6 := by
  refine ⟨by decide, by decide, by decide⟩

/-- The entries `Ledger.postEntries` emits are balanced: each line item
contributes its posted amount once to each side. -/
lemma postEntries_balanced (e t c m : Nat) (items : List LineItem) :
    debitsTotal (Ledger.postEntries e t c m items)
      = creditsTotal (Ledger.postEntries e t c m items) := by
  induction items with
  | nil => simp [Ledger.postEntries, debitsTotal, creditsTotal]
  | cons l rest ih =>
    rcases hl : l.credited <;>
      simp [Ledger.postEntries, debitsTotal, creditsTotal, hl,
        List.filter_cons] at ih ⊢ <;> rw [ih]

/-- `Ledger.postEntries` emits entries as soon as there is a line item. -/
lemma postEntries_ne_nil (e t c m : Nat) (l : LineItem) (items : List LineItem) :
    Ledger.postEntries e t c m (l :: items) ≠ [] := by
  simp [Ledger.postEntries]

/-- Claim C2: a posted transaction's ledger entries satisfy the double-entry
invariant: the DEBIT amounts and the CREDIT amounts have the same total (and
the transaction is indeed posted).  `Ledger.post` being absent from the
sources, its matched-pair semantics is modelled from spec §4.3. -/
theorem posted_transaction_balanced (tx tx' : Transaction)
    (h : tx.post = Except.ok tx') :
    tx'.is_posted = true
      ∧ debitsTotal tx'.ledgers = creditsTotal tx'.ledgers := by
  unfold Transaction.post at h
  split at h
  · exact absurd h (by simp)
  · rename_i hne
    injection h with h
    subst h
    refine ⟨?_, postEntries_balanced _ _ _ _ _⟩
    rcases hl : tx.line_items with _ | ⟨l, rest⟩
    · rw [hl] at hne; simp at hne
    · simp only [Transaction.is_posted, hl]
      have := postEntries_ne_nil tx.entity_id (tx.id.getD 0) tx.currency_id
        tx.account_id l rest
      simp only [decide_eq_true_eq]
      exact List.length_pos.mpr this

/-- A persisted revenue line item of 200 at a non-inclusive 10% tax. -/
def liRevenue : LineItem :=
  { id := some 11, account_id := 9, amount := 200, quantity := 1,
    tax := some { code := "V", name := "VAT", rate := 10 },
    tax_inclusive := false, credited := true }

/-- `tx5` carrying `liRevenue`, ready to post. -/
def txReady : Transaction := { tx5 with line_items := [liRevenue] }

/-- The result of posting `txReady`. -/
def txPosted : Transaction :=
  { txReady with ledgers :=
      Ledger.postEntries txReady.entity_id 5 3 7 [liRevenue] }

/-- Witness for C2: posting the concrete transaction `txReady` succeeds and
its ledger is balanced. -/
theorem posted_transaction_balanced_witness :
    txReady.post = Except.ok txPosted
      ∧ (txPosted.is_posted = true
          ∧ debitsTotal txPosted.ledgers = creditsTotal txPosted.ledgers) :=
  ⟨by decide, posted_transaction_balanced txReady txPosted (by decide)⟩

/-- Claim C3: on a posted transaction (non-empty `ledgers`), `validate`
raises `PostedTransactionError` immediately — before any mutation, so the
transaction is unchanged and never re-validated — and `validate_delete`
raises `PostedTransactionError` as well: posted transactions are never
deletable. -/
theorem posted_transaction_immutable (s : Session) (cfg : Config)
    (tx : Transaction) (h : tx.ledgers ≠ []) :
    Transaction.validate s cfg tx
        = Except.error (.postedTransaction "A Posted Transaction cannot be modified.")
      ∧ Transaction.validate_delete tx
        = Except.error (.postedTransaction "A Posted Transaction cannot be deleted.") := by
  have hp : tx.is_posted = true := by
    simp [Transaction.is_posted, List.length_pos]
    exact h
  unfold Transaction.validate Transaction.validate_delete
  simp [hp]

/-- Witness for C3: `txPosted` has a non-empty ledger and both operations
reject it. -/
theorem posted_transaction_immutable_witness :
    txPosted.ledgers ≠ []
      ∧ (Transaction.validate sess cfg0 txPosted
            = Except.error (.postedTransaction "A Posted Transaction cannot be modified.")
          ∧ Transaction.validate_delete txPosted
            = Except.error (.postedTransaction "A Posted Transaction cannot be deleted.")) :=
  ⟨by decide, posted_transaction_immutable sess cfg0 txPosted (by decide)⟩

/-- On a non-compound transaction, a line item accepted by the
`validate_line_items` hook comes out on the opposite side of the
transaction. -/
lemma validate_line_items_credited (tx : Transaction) (li li2 : LineItem)
    (is_remove : Bool) (hc : tx.compound = false)
    (h : tx.validate_line_items li is_remove = Except.ok li2) :
    li2.credited = !tx.credited := by
  unfold Transaction.validate_line_items at h
  split at h
  · exact absurd h (by simp)
  · split at h
    · exact absurd h (by simp)
    · split at h
      · injection h with h
        subst h
        rfl
      · rename_i hkeep
        injection h with h
        subst h
        simp only [hc, Bool.not_false, Bool.true_and, beq_iff_eq] at hkeep
        cases htx : tx.credited <;> simp_all

/-- Claim C4: for a non-compound transaction, attaching a line item through
the `line_items` hook leaves every attached line item's `credited` flag the
logical negation of the transaction's `credited` flag: the hook forces the
candidate to the opposite side of the main account, and the previously
attached items keep the property. -/
theorem attach_forces_opposite_side (tx tx' : Transaction) (li : LineItem)
    (hc : tx.compound = false)
    (hall : ∀ l ∈ tx.line_items, l.credited = !tx.credited)
    (h : tx.attach li = Except.ok tx') :
    ∀ l ∈ tx'.line_items, l.credited = !tx'.credited := by
  unfold Transaction.attach at h
  rcases hv : tx.validate_line_items li false with e | li2
  · rw [hv] at h; exact absurd h (by simp)
  · rw [hv] at h
    injection h with h
    subst h
    intro l hl
    simp only [List.mem_append, List.mem_singleton] at hl
    rcases hl with hl | hl
    · exact hall l hl
    · subst hl
      exact validate_line_items_credited tx li l false hc hv

/-- An unposted, persisted line item on the same side as `tx5`. -/
def liSameSide : LineItem := { liRevenue with credited := false }

/-- The result of attaching `liSameSide` to `tx5`: the hook flips it to the
credit side. -/
def txAttached : Transaction :=
  { tx5 with line_items := [{ liSameSide with credited := true }] }

/-- Witness for C4: attaching a debit-side line item to the non-compound,
debit-side transaction `tx5` leaves it on the credit side. -/
theorem attach_forces_opposite_side_witness :
    (tx5.compound = false
        ∧ (∀ l ∈ tx5.line_items, l.credited = !tx5.credited)
        ∧ tx5.attach liSameSide = Except.ok txAttached)
      ∧ ∀ l ∈ txAttached.line_items, l.credited = !txAttached.credited :=
  ⟨⟨by decide, by decide, by decide⟩,
    attach_forces_opposite_side tx5 txAttached liSameSide (by decide) (by decide)
      (by decide)⟩

/-- Claim C5: the `amount` property computed by the code equals the claim's
reading of it: over exactly the attached line items whose credited flag
differs from the transaction's, the sum of `quantity * amount` plus the sum
of the tax amounts `amount * quantity * rate / 100` of the taxed,
non-tax-inclusive ones among them. -/
theorem amount_matches_stated (tx : Transaction) :
    tx.amount = Transaction.amount_stated tx := by
  unfold Transaction.amount Transaction.amount_stated
  induction tx.line_items.filter (fun l => l.credited != tx.credited) with
  | nil => simp
  | cons l rest ih =>
    simp only [List.map_cons, List.sum_cons]
    rw [ih]
    rcases hinc : l.tax_inclusive <;> rcases ht : l.tax <;> simp <;> ring

/-- Claim C6: for an unposted transaction whose main account resolves,
`validate` raises `ClosedReportingPeriodError` when the period owning the
transaction date is CLOSED, raises `AdjustingReportingPeriodError` when that
period is ADJUSTING and the type is not a journal entry, and raises neither
of the two when a journal entry falls in an ADJUSTING period. -/
theorem validate_period_status_gate (s : Session) (cfg : Config)
    (tx : Transaction) (account : Account) (rp : ReportingPeriod)
    (hp : tx.ledgers = [])
    (ha : s.accounts tx.account_id = some account)
    (hr : s.periods tx.transaction_date = some rp) :
    (rp.status = RPStatus.CLOSED →
        Transaction.validate s cfg tx = Except.error VError.closedReportingPeriod)
      ∧ (rp.status = RPStatus.ADJUSTING →
          tx.transaction_type ≠ TransactionType.JOURNAL_ENTRY →
          Transaction.validate s cfg tx = Except.error VError.adjustingReportingPeriod)
      ∧ (rp.status = RPStatus.ADJUSTING →
          tx.transaction_type = TransactionType.JOURNAL_ENTRY →
          Transaction.validate s cfg tx ≠ Except.error VError.closedReportingPeriod
            ∧ Transaction.validate s cfg tx ≠ Except.error VError.adjustingReportingPeriod) := by
  have hps : tx.is_posted = false := by simp [Transaction.is_posted, hp]
  unfold Transaction.validate
  simp only [hps, ha, hr, Bool.false_eq_true, if_false]
  refine ⟨fun hcl => by simp [hcl],
    fun hadj hne => by simp [Transaction.set_currency, hadj, hne], ?_⟩
  intro hadj hje
  constructor
  · intro h
    repeat' split at h
    all_goals simp_all [Transaction.set_currency]
  · intro h
    repeat' split at h
    all_goals simp_all [Transaction.set_currency]

/-- A transaction on `acct7` dated in an adjusting period starting at 100. -/
def rpAdjusting : ReportingPeriod :=
  { status := .ADJUSTING, period_count := 3, interval_start := 100 }

/-- A session resolving every date to the adjusting period `rpAdjusting`. -/
def sessAdj : Session := { sess with periods := fun _ => some rpAdjusting }

/-- `tx0` as a journal entry. -/
def txJournal : Transaction := { tx0 with transaction_type := .JOURNAL_ENTRY }

/-- Witness for C6: in the concrete adjusting period, the non-journal `tx0`
is rejected with `AdjustingReportingPeriodError` while the journal entry
`txJournal` passes the period-status gate. -/
theorem validate_period_status_gate_witness :
    (tx0.ledgers = []
        ∧ sessAdj.accounts tx0.account_id = some acct7
        ∧ sessAdj.periods tx0.transaction_date = some rpAdjusting)
      ∧ Transaction.validate sessAdj cfg0 tx0
          = Except.error VError.adjustingReportingPeriod
      ∧ (Transaction.validate sessAdj cfg0 txJournal
            ≠ Except.error VError.closedReportingPeriod
          ∧ Transaction.validate sessAdj cfg0 txJournal
            ≠ Except.error VError.adjustingReportingPeriod) :=
  ⟨⟨by decide, by decide, by decide⟩,
    (validate_period_status_gate sessAdj cfg0 tx0 acct7 rpAdjusting
      (by decide) (by decide) (by decide)).2.1 rfl (by decide),
    (validate_period_status_gate sessAdj cfg0 txJournal acct7 rpAdjusting
      (by decide) (by decide) (by decide)).2.2 rfl rfl⟩

/-- Claim C7: for an unposted transaction that reaches the date check (its
main account resolves and the owning period's status gate passes),
`validate` raises `InvalidTransactionDateError` exactly when the transaction
date is the period's start instant; any later instant within the period is
not rejected by this check. -/
theorem validate_rejects_period_start_date (s : Session) (cfg : Config)
    (tx : Transaction) (account : Account) (rp : ReportingPeriod)
    (hp : tx.ledgers = [])
    (ha : s.accounts tx.account_id = some account)
    (hr : s.periods tx.transaction_date = some rp)
    (hcl : rp.status ≠ RPStatus.CLOSED)
    (hadj : rp.status = RPStatus.ADJUSTING →
      tx.transaction_type = TransactionType.JOURNAL_ENTRY) :
    Transaction.validate s cfg tx = Except.error VError.invalidTransactionDate
      ↔ tx.transaction_date = rp.interval_start := by
  have hps : tx.is_posted = false := by simp [Transaction.is_posted, hp]
  have hadj2 : ¬(rp.status = RPStatus.ADJUSTING
      ∧ tx.transaction_type ≠ TransactionType.JOURNAL_ENTRY) := by
    rintro ⟨h1, h2⟩; exact h2 (hadj h1)
  unfold Transaction.validate
  simp only [hps, ha, hr, Bool.false_eq_true, if_false]
  constructor
  · intro h
    by_contra hne
    repeat' split at h
    all_goals simp_all [Transaction.set_currency]
  · intro h
    simp [h, hadj2, if_neg hcl, Transaction.set_currency]

/-- `tx0` dated exactly at the start instant of `rpOpen`. -/
def txAtStart : Transaction := { tx0 with transaction_date := 100 }

/-- `tx0` dated one instant after the start of `rpOpen`. -/
def txAfterStart : Transaction := { tx0 with transaction_date := 101 }

/-- Witness for C7: dating the concrete transaction exactly at instant 100 —
`rpOpen`'s start — makes `validate` raise `InvalidTransactionDateError`,
while dating it at instant 101 does not. -/
theorem validate_rejects_period_start_date_witness :
    (txAtStart.ledgers = []
        ∧ sess.accounts txAtStart.account_id = some acct7
        ∧ sess.periods txAtStart.transaction_date = some rpOpen)
      ∧ Transaction.validate sess cfg0 txAtStart
          = Except.error VError.invalidTransactionDate
      ∧ Transaction.validate sess cfg0 txAfterStart
          ≠ Except.error VError.invalidTransactionDate :=
  ⟨⟨by decide, by decide, by decide⟩,
    (validate_rejects_period_start_date sess cfg0 txAtStart acct7 rpOpen
      (by decide) (by decide) (by decide) (by decide) (by decide)).mpr (by decide),
    fun h =>
      absurd ((validate_rejects_period_start_date sess cfg0 txAfterStart acct7 rpOpen
        (by decide) (by decide) (by decide) (by decide) (by decide)).mp h)
        (by decide)⟩

/-- Claim C8: attaching a line item whose `id` is null fails for every
transaction (so the item is never added), and attaching any line item to a
posted transaction fails with `PostedTransactionError`; the hook raising
means `line_items` is left untouched — `attach` only extends the collection
in the `ok` case. -/
theorem attach_rejects_unpersisted_and_posted (tx : Transaction) (li : LineItem) :
    (li.id = none → ∃ e, tx.attach li = Except.error e)
      ∧ (tx.is_posted = true →
          tx.attach li = Except.error
            (.postedTransaction "Cannot Add Line Items from a Posted Transaction.")) := by
  constructor
  · intro hid
    unfold Transaction.attach Transaction.validate_line_items
    rcases hp : tx.is_posted <;> simp [hp, hid]
  · intro hp
    unfold Transaction.attach Transaction.validate_line_items
    simp [hp]

/-- A line item that was never persisted (`id = None`). -/
def liUnpersisted : LineItem := { liRevenue with id := none }

/-- Witness for C8: attaching the unpersisted line item to the unposted `tx5`
fails, and attaching the persisted `liRevenue` to the posted `txPosted` fails
with `PostedTransactionError`. -/
theorem attach_rejects_unpersisted_and_posted_witness :
    (liUnpersisted.id = none ∧ txPosted.is_posted = true)
      ∧ (∃ e, tx5.attach liUnpersisted = Except.error e)
      ∧ txPosted.attach liRevenue = Except.error
          (.postedTransaction "Cannot Add Line Items from a Posted Transaction.") :=
  ⟨⟨by decide, by decide⟩,
    (attach_rejects_unpersisted_and_posted tx5 liUnpersisted).1 (by decide),
    (attach_rejects_unpersisted_and_posted txPosted liRevenue).2 (by decide)⟩

/-- A successful `validate` returns exactly the currency-rewritten, numbered
transaction built from a resolved account and reporting period. -/
lemma validate_ok_shape (s : Session) (cfg : Config) (tx tx' : Transaction)
    (h : Transaction.validate s cfg tx = Except.ok tx') :
    ∃ account rp, s.accounts tx.account_id = some account
      ∧ s.periods tx.transaction_date = some rp
      ∧ tx' = Transaction.assign_transaction_no s cfg (tx.set_currency account) rp := by
  unfold Transaction.validate at h
  split at h
  · exact absurd h (by simp)
  · split at h
    · exact absurd h (by simp)
    · rename_i account ha
      split at h
      · exact absurd h (by simp)
      · rename_i rp hr
        repeat' split at h
        all_goals first
          | exact Except.noConfusion h
          | (injection h with h; exact ⟨account, rp, ha, hr, h.symm⟩)

/-- When the current `transaction_no` is Python-falsy, the assignment step
writes the auto-generated number. -/
lemma assign_transaction_no_of_falsy (s : Session) (cfg : Config)
    (tx1 : Transaction) (rp : ReportingPeriod)
    (hf : Transaction.falsyOptStr tx1.transaction_no = true) :
    Transaction.assign_transaction_no s cfg tx1 rp
      = { tx1 with transaction_no := some (Transaction.transaction_no_next s cfg tx1 tx1.transaction_type rp) } := by
  unfold Transaction.assign_transaction_no
  rw [if_pos hf]

/-- When a `transaction_no` is already set, the assignment step leaves the
transaction untouched. -/
lemma assign_transaction_no_of_set (s : Session) (cfg : Config)
    (tx1 : Transaction) (rp : ReportingPeriod)
    (hf : Transaction.falsyOptStr tx1.transaction_no = false) :
    Transaction.assign_transaction_no s cfg tx1 rp = tx1 := by
  unfold Transaction.assign_transaction_no
  rw [if_neg (by simp [hf])]

/-- Claim C9: a successful `validate` of a transaction with no
`transaction_no` (Python-falsy: absent or empty) assigns it the string
`{type_prefix}{period_count:02}/{sequence:04}`, where the sequence is the
count of the entity's transactions of the same type dated after the owning
period's start, plus the transaction's `session_index` (1 by default); a
transaction that already carries a `transaction_no` keeps it unchanged. -/
theorem validate_assigns_transaction_no (s : Session) (cfg : Config)
    (tx tx' : Transaction) (rp : ReportingPeriod)
    (hr : s.periods tx.transaction_date = some rp)
    (h : Transaction.validate s cfg tx = Except.ok tx') :
    (Transaction.falsyOptStr tx.transaction_no = true →
        tx'.transaction_no = some (cfg.prefixFor tx.transaction_type
          ++ Transaction.padNum 2 rp.period_count ++ "/"
          ++ Transaction.padNum 4
              (Transaction.priorCount s tx tx.transaction_type rp
                + tx.session_index.getD 1)))
      ∧ (Transaction.falsyOptStr tx.transaction_no = false →
          tx'.transaction_no = tx.transaction_no) := by
  obtain ⟨account, rp2, ha, hr2, htx⟩ := validate_ok_shape s cfg tx tx' h
  rw [hr] at hr2
  injection hr2 with hr2
  subst hr2
  subst htx
  constructor
  · intro hf
    have hf2 : Transaction.falsyOptStr (tx.set_currency account).transaction_no = true := hf
    rw [assign_transaction_no_of_falsy s cfg _ rp hf2]
    simp [Transaction.transaction_no_next, Transaction.set_currency,
      Transaction.priorCount]
  · intro hf
    have hf2 : Transaction.falsyOptStr (tx.set_currency account).transaction_no = false := hf
    rw [assign_transaction_no_of_set s cfg _ rp hf2]
    rfl

/-- The expected auto-assigned number of `tx0` in `sess`: no prior
transactions, period 2, sequence 1. -/
def tx0Validated : Transaction :=
  { tx0 with currency_id := 3, transaction_no := some "IN02/0001" }

/-- Witness for C9: validating the concrete `tx0` (which has no
`transaction_no`) in the empty session assigns exactly `IN02/0001`. -/
theorem validate_assigns_transaction_no_witness :
    (sess.periods tx0.transaction_date = some rpOpen
        ∧ Transaction.validate sess cfg0 tx0 = Except.ok tx0Validated
        ∧ Transaction.falsyOptStr tx0.transaction_no = true)
      ∧ tx0Validated.transaction_no = some (cfg0.prefixFor tx0.transaction_type
          ++ Transaction.padNum 2 rpOpen.period_count ++ "/"
          ++ Transaction.padNum 4
              (Transaction.priorCount sess tx0 tx0.transaction_type rpOpen
                + tx0.session_index.getD 1)) :=
  ⟨⟨by decide, by decide, by decide⟩,
    (validate_assigns_transaction_no sess cfg0 tx0 tx0Validated rpOpen
      (by decide) (by decide)).1 (by decide)⟩

/-- Claim C10: a successful `validate` overwrites `currency_id` with the main
account's `currency_id`, and — apart from the documented `transaction_no`
assignment — modifies no other field of the transaction. -/
theorem validate_frame (s : Session) (cfg : Config) (tx tx' : Transaction)
    (h : Transaction.validate s cfg tx = Except.ok tx') :
    (∃ account, s.accounts tx.account_id = some account
        ∧ tx'.currency_id = account.currency_id)
      ∧ tx'.id = tx.id
      ∧ tx'.entity_id = tx.entity_id
      ∧ tx'.transaction_date = tx.transaction_date
      ∧ tx'.transaction_type = tx.transaction_type
      ∧ tx'.narration = tx.narration
      ∧ tx'.reference = tx.reference
      ∧ tx'.main_account_amount = tx.main_account_amount
      ∧ tx'.credited = tx.credited
      ∧ tx'.compound = tx.compound
      ∧ tx'.account_id = tx.account_id
      ∧ tx'.line_items = tx.line_items
      ∧ tx'.ledgers = tx.ledgers
      ∧ tx'.transaction_type_changed = tx.transaction_type_changed
      ∧ tx'.session_index = tx.session_index
      ∧ (Transaction.falsyOptStr tx.transaction_no = false →
          tx'.transaction_no = tx.transaction_no) := by
  obtain ⟨account, rp, ha, hr, htx⟩ := validate_ok_shape s cfg tx tx' h
  subst htx
  rcases hf : Transaction.falsyOptStr tx.transaction_no with _ | _
  · have hf2 : Transaction.falsyOptStr (tx.set_currency account).transaction_no = false := hf
    rw [assign_transaction_no_of_set s cfg _ rp hf2]
    exact ⟨⟨account, ha, rfl⟩, rfl, rfl, rfl, rfl, rfl, rfl, rfl, rfl,
      rfl, rfl, rfl, rfl, rfl, rfl, fun _ => rfl⟩
  · have hf2 : Transaction.falsyOptStr (tx.set_currency account).transaction_no = true := hf
    rw [assign_transaction_no_of_falsy s cfg _ rp hf2]
    exact ⟨⟨account, ha, rfl⟩, rfl, rfl, rfl, rfl, rfl, rfl, rfl, rfl,
      rfl, rfl, rfl, rfl, rfl, rfl, fun hff => by simp [hf] at hff⟩

/-- Witness for C10: validating the concrete `tx0` rewrites its currency to
`acct7`'s currency 3 and leaves every other field as it was. -/
theorem validate_frame_witness :
    Transaction.validate sess cfg0 tx0 = Except.ok tx0Validated
      ∧ ((∃ account, sess.accounts tx0.account_id = some account
            ∧ tx0Validated.currency_id = account.currency_id)
          ∧ tx0Validated.id = tx0.id
          ∧ tx0Validated.entity_id = tx0.entity_id
          ∧ tx0Validated.transaction_date = tx0.transaction_date
          ∧ tx0Validated.transaction_type = tx0.transaction_type
          ∧ tx0Validated.narration = tx0.narration
          ∧ tx0Validated.reference = tx0.reference
          ∧ tx0Validated.main_account_amount = tx0.main_account_amount
          ∧ tx0Validated.credited = tx0.credited
          ∧ tx0Validated.compound = tx0.compound
          ∧ tx0Validated.account_id = tx0.account_id
          ∧ tx0Validated.line_items = tx0.line_items
          ∧ tx0Validated.ledgers = tx0.ledgers
          ∧ tx0Validated.transaction_type_changed = tx0.transaction_type_changed
          ∧ tx0Validated.session_index = tx0.session_index
          ∧ (Transaction.falsyOptStr tx0.transaction_no = false →
              tx0Validated.transaction_no = tx0.transaction_no)) :=
  ⟨by decide, validate_frame sess cfg0 tx0 tx0Validated (by decide)⟩

end PythonAccounting
